import Mathlib

/-!
Shallow embedding of the Sonarr Raycast extension's multi-instance API
access layer (src/extensions/sonarr/src/config.ts, utils.ts,
download-queue.tsx and the useSonarrAPI hook module), together with
theorems settling the specification claims about it.

Conventions for the embedding of the TypeScript source:
* JavaScript strings are Lean `String`s; an `undefined` optional string
  preference is embedded as `""` (both are falsy in the source's truthiness
  tests, which only ever test these fields for truthiness).
* An `undefined` optional boolean preference is embedded as `false`.
* Thrown exceptions become `Except.error`; the network is a parameter
  (`FetchResult`): the outcome the `fetch` call would deliver.
* Observable side effects (requests issued, toasts shown, console output)
  are returned as an in-order list of `Effect`s.
-/

namespace Sonarr

/-- One configured backend instance (src/extensions/sonarr/src/types.ts). -/
structure SonarrInstance where
  name : String
  url : String
  apiKey : String
  isDefault : Bool
deriving Repr, DecidableEq, Inhabited

/-- The preference surface read by config.ts (interface Preferences).
Optional string fields are `""` when unset, the optional boolean is `false`
when unset, and `activeInstance` is the raw dropdown string
(`"primary"`, `"secondary"`, or `""` when unset). -/
structure Preferences where
  primaryInstanceName : String
  primaryInstanceUrl : String
  primaryInstanceApiKey : String
  enableSecondaryInstance : Bool
  secondaryInstanceName : String
  secondaryInstanceUrl : String
  secondaryInstanceApiKey : String
  activeInstance : String
deriving Repr, DecidableEq

/-- Errors thrown by config.ts, by their message. -/
inductive ConfigError where
  /-- "Primary Sonarr instance configuration is incomplete" (config.ts:21) -/
  | primaryIncomplete
  /-- "No Sonarr instances configured" (config.ts:63) -/
  | noInstances
deriving Repr, DecidableEq

/-- `url.replace(/\/$/, "")` (config.ts:26 and config.ts:40): the regex
anchors a single `/` at the end of the string, so it removes at most one
trailing slash. -/
def stripTrailingSlash (s : String) : String :=
  if s.data.getLast? = some '/' then String.mk s.data.dropLast else s

/-- The primary instance value pushed by getSonarrInstances (config.ts:24-29). -/
def primaryInstanceOf (p : Preferences) : SonarrInstance :=
  { name := p.primaryInstanceName
    url := stripTrailingSlash p.primaryInstanceUrl
    apiKey := p.primaryInstanceApiKey
    isDefault := true }

/-- The secondary instance value pushed by getSonarrInstances (config.ts:38-43). -/
def secondaryInstanceOf (p : Preferences) : SonarrInstance :=
  { name := p.secondaryInstanceName
    url := stripTrailingSlash p.secondaryInstanceUrl
    apiKey := p.secondaryInstanceApiKey
    isDefault := false }

/-- The truthiness test guarding the primary push (config.ts:20). -/
def primaryIncomplete (p : Preferences) : Prop :=
  p.primaryInstanceName = "" ∨ p.primaryInstanceUrl = "" ∨ p.primaryInstanceApiKey = ""

instance (p : Preferences) : Decidable (primaryIncomplete p) := by
  unfold primaryIncomplete; infer_instance

/-- The guard appending the secondary instance (config.ts:32-37): enabled
flag set and all three secondary fields truthy. -/
def secondaryConfigured (p : Preferences) : Prop :=
  p.enableSecondaryInstance = true ∧ p.secondaryInstanceName ≠ "" ∧
    p.secondaryInstanceUrl ≠ "" ∧ p.secondaryInstanceApiKey ≠ ""

instance (p : Preferences) : Decidable (secondaryConfigured p) := by
  unfold secondaryConfigured; infer_instance

/-- getSonarrInstances (config.ts:15-47). -/
def getSonarrInstances (p : Preferences) : Except ConfigError (List SonarrInstance) :=
  if primaryIncomplete p then
    Except.error ConfigError.primaryIncomplete
  else if secondaryConfigured p then
    Except.ok [primaryInstanceOf p, secondaryInstanceOf p]
  else
    Except.ok [primaryInstanceOf p]

/-- getActiveSonarrInstance (config.ts:49-64). -/
def getActiveSonarrInstance (p : Preferences) : Except ConfigError SonarrInstance :=
  match getSonarrInstances p with
  | Except.error e => Except.error e
  | Except.ok instances =>
    if p.activeInstance = "secondary" ∧ p.enableSecondaryInstance = true ∧
        instances.length > 1 then
      Except.ok (instances.getD 1 default)
    else if instances.length > 0 then
      Except.ok (instances.getD 0 default)
    else
      Except.error ConfigError.noInstances

/-! ## API access layer (hooks/useSonarrAPI module, src/unnamed/part_000) -/

/-- Toast styles used by the source (`Toast.Style.Success` / `.Failure`). -/
inductive ToastStyle where
  | success
  | failure
deriving Repr, DecidableEq

/-- A `showToast` invocation's visible content. -/
structure ToastSpec where
  style : ToastStyle
  title : String
  message : String
deriving Repr, DecidableEq

/-- An observable side effect of an API-layer operation, in program order. -/
inductive Effect where
  /-- A network request issued by `fetch` (method, full URL, X-Api-Key header). -/
  | request (method : String) (url : String) (apiKey : String)
  | toast (t : ToastSpec)
  | consoleError (msg : String)
deriving Repr, DecidableEq

/-- An HTTP response as `fetch` resolves it, with body of type `β`. -/
structure HttpResponse (β : Type) where
  status : Nat
  statusText : String
  body : β
deriving Repr, DecidableEq

/-- `response.ok`: status in the inclusive range 200-299. -/
def HttpResponse.okStatus {β : Type} (r : HttpResponse β) : Bool :=
  decide (200 ≤ r.status) && decide (r.status < 300)

/-- What the `fetch` call delivers: a response, or a transport failure
(the promise rejects). -/
inductive FetchResult (β : Type) where
  | response (r : HttpResponse β)
  | networkError (msg : String)
deriving Repr, DecidableEq

/-- `true` when the fetch outcome is a failure the catch-or-ok-check paths
see: transport failure or non-2xx status. -/
def fetchFailed {β : Type} : FetchResult β → Bool
  | FetchResult.response r => !r.okStatus
  | FetchResult.networkError _ => true

/-- The guard `!instance?.url || !instance?.apiKey` shared by every
one-shot operation: true when the instance is absent or a credential is
missing (empty strings are falsy). -/
def instanceInvalid : Option SonarrInstance → Bool
  | none => true
  | some i => decide (i.url = "") || decide (i.apiKey = "")

/-- An error thrown by the API layer, carried by its message. -/
structure SonarrError where
  message : String
deriving Repr, DecidableEq

/-- The message of the error thrown when `instanceInvalid` holds. -/
def invalidInstanceMessage : String := "Invalid Sonarr instance configuration"

/-- `HTTP ${status}: ${statusText}` (the throw on `!response.ok`). -/
def httpErrorMessage (status : Nat) (statusText : String) : String :=
  "HTTP " ++ toString status ++ ": " ++ statusText

/-! ### searchSeries (part_000:144-173) -/

/-- A season entry of a lookup result (types.ts `Season`), reduced to the
fields the payload copies verbatim. -/
structure Season where
  seasonNumber : Nat
  monitored : Bool
deriving Repr, DecidableEq

/-- A series image reference (types.ts `SeriesImage`). -/
structure SeriesImage where
  coverType : String
  url : String
deriving Repr, DecidableEq

/-- A series lookup result (types.ts `SeriesLookup`), reduced to the fields
`searchSeries`/`addSeries` read. -/
structure SeriesLookup where
  title : String
  sortTitle : String
  status : String
  overview : String
  network : String
  airTime : String
  images : List SeriesImage
  seasons : List Season
  year : Nat
  tvdbId : Nat
  imdbId : String
  titleSlug : String
deriving Repr, DecidableEq

/-- The JSON body of a lookup response: `Array.isArray(result)` either
holds (an array of lookups) or not. -/
inductive LookupBody where
  | arr (xs : List SeriesLookup)
  | notArray
deriving Repr, DecidableEq

/-- searchSeries (part_000:144-173). The instance guard throws outside the
try block; inside it, a non-ok status throws and the catch turns any
failure into a console line, a failure toast, and `[]`. Percent-encoding
of the query term is not modelled (no claim concerns it). -/
def searchSeries (inst : Option SonarrInstance) (query : String)
    (outcome : FetchResult LookupBody) :
    List Effect × Except SonarrError (List SeriesLookup) :=
  if instanceInvalid inst then
    ([], Except.error ⟨invalidInstanceMessage⟩)
  else
    match inst with
    | none => ([], Except.error ⟨invalidInstanceMessage⟩)
    | some i =>
      let url := i.url ++ "/api/v3/series/lookup?term=" ++ query
      let req := Effect.request "GET" url i.apiKey
      let failEffects := fun (msg : String) =>
        [req, Effect.consoleError ("Series search error: " ++ msg),
          Effect.toast ⟨ToastStyle.failure, "Search Failed",
            "Failed to search series: " ++ msg⟩]
      match outcome with
      | FetchResult.networkError msg => (failEffects msg, Except.ok [])
      | FetchResult.response r =>
        if r.okStatus then
          match r.body with
          | LookupBody.arr xs => ([req], Except.ok xs)
          | LookupBody.notArray => ([req], Except.ok [])
        else
          (failEffects (httpErrorMessage r.status r.statusText), Except.ok [])

/-! ### addSeries (part_000:175-251) -/

/-- `addOptions` of the add-series payload (part_000:213-216). -/
structure AddOptions where
  searchForMissingEpisodes : Bool
  searchForCutoffUnmetEpisodes : Bool
deriving Repr, DecidableEq

/-- The POST body built by addSeries (part_000:193-217). -/
structure AddSeriesPayload where
  title : String
  sortTitle : String
  status : String
  overview : String
  network : String
  airTime : String
  images : List SeriesImage
  seasons : List Season
  year : Nat
  path : String
  qualityProfileId : Nat
  languageProfileId : Nat
  seasonFolder : Bool
  monitored : Bool
  tvdbId : Nat
  imdbId : String
  titleSlug : String
  seriesType : String
  tags : List Nat
  addOptions : AddOptions
deriving Repr, DecidableEq

/-- The payload construction of addSeries (part_000:193-217).
`seasons` is `monitorSeasons || series.seasons`: `monitorSeasons` wins
whenever it was passed (even as an empty array, which is truthy);
`path` is the template literal `${rootFolderPath}/${series.title}`. -/
def addSeriesPayload (series : SeriesLookup) (qualityProfileId : Nat)
    (rootFolderPath : String) (languageProfileId : Nat) (seriesType : String)
    (seasonFolder monitored searchOnAdd : Bool)
    (monitorSeasons : Option (List Season)) : AddSeriesPayload :=
  { title := series.title
    sortTitle := series.sortTitle
    status := series.status
    overview := series.overview
    network := series.network
    airTime := series.airTime
    images := series.images
    seasons := match monitorSeasons with
      | some ms => ms
      | none => series.seasons
    year := series.year
    path := rootFolderPath ++ "/" ++ series.title
    qualityProfileId := qualityProfileId
    languageProfileId := languageProfileId
    seasonFolder := seasonFolder
    monitored := monitored
    tvdbId := series.tvdbId
    imdbId := series.imdbId
    titleSlug := series.titleSlug
    seriesType := seriesType
    tags := []
    addOptions := { searchForMissingEpisodes := searchOnAdd
                    searchForCutoffUnmetEpisodes := false } }

/-- A request effect that carries a POST body payload. -/
inductive WriteEffect where
  | post (url : String) (apiKey : String) (body : AddSeriesPayload)
  | toast (t : ToastSpec)
  | consoleError (msg : String)
deriving Repr, DecidableEq

/-- addSeries (part_000:175-251): guard throws outside the try; the POST
carries the constructed payload; a non-ok status throws `HTTP status: body`
which the catch re-throws after a failure toast; success shows a success
toast and returns the parsed response body. -/
def addSeries (inst : Option SonarrInstance) (series : SeriesLookup)
    (qualityProfileId : Nat) (rootFolderPath : String) (languageProfileId : Nat)
    (seriesType : String) (seasonFolder monitored searchOnAdd : Bool)
    (monitorSeasons : Option (List Season))
    (outcome : FetchResult String) :
    List WriteEffect × Except SonarrError String :=
  if instanceInvalid inst then
    ([], Except.error ⟨invalidInstanceMessage⟩)
  else
    match inst with
    | none => ([], Except.error ⟨invalidInstanceMessage⟩)
    | some i =>
      let url := i.url ++ "/api/v3/series"
      let payload := addSeriesPayload series qualityProfileId rootFolderPath
        languageProfileId seriesType seasonFolder monitored searchOnAdd monitorSeasons
      let req := WriteEffect.post url i.apiKey payload
      match outcome with
      | FetchResult.networkError msg =>
        ([req, WriteEffect.consoleError ("Add series error: " ++ msg),
          WriteEffect.toast ⟨ToastStyle.failure, "Failed to Add Series",
            "Could not add " ++ series.title ++ ": " ++ msg⟩],
          Except.error ⟨msg⟩)
      | FetchResult.response r =>
        if r.okStatus then
          ([req, WriteEffect.toast ⟨ToastStyle.success, "Series Added",
            series.title ++ " (" ++ toString series.year ++ ") added to " ++ i.name⟩],
            Except.ok r.body)
        else
          let msg := httpErrorMessage r.status r.body
          ([req, WriteEffect.consoleError ("Add series error: " ++ msg),
            WriteEffect.toast ⟨ToastStyle.failure, "Failed to Add Series",
              "Could not add " ++ series.title ++ ": " ++ msg⟩],
            Except.error ⟨msg⟩)

/-! ### removeQueueItem (part_000:253-290) -/

/-- JavaScript boolean-to-string interpolation used in the query string. -/
def jsBoolString (b : Bool) : String := if b then "true" else "false"

/-- removeQueueItem (part_000:253-290): DELETE with `removeFromClient` and
`blocklist` query flags; a non-ok status throws `HTTP status: statusText`,
re-thrown by the catch after the failure toast. The response body is
irrelevant (`Unit`). -/
def removeQueueItem (inst : Option SonarrInstance) (id : Nat)
    (removeFromClient blocklist : Bool) (outcome : FetchResult Unit) :
    List Effect × Except SonarrError Unit :=
  if instanceInvalid inst then
    ([], Except.error ⟨invalidInstanceMessage⟩)
  else
    match inst with
    | none => ([], Except.error ⟨invalidInstanceMessage⟩)
    | some i =>
      let url := i.url ++ "/api/v3/queue/" ++ toString id ++
        "?removeFromClient=" ++ jsBoolString removeFromClient ++
        "&blocklist=" ++ jsBoolString blocklist
      let req := Effect.request "DELETE" url i.apiKey
      match outcome with
      | FetchResult.networkError msg =>
        ([req, Effect.consoleError ("Remove queue item error: " ++ msg),
          Effect.toast ⟨ToastStyle.failure, "Failed to Remove Item", msg⟩],
          Except.error ⟨msg⟩)
      | FetchResult.response r =>
        if r.okStatus then
          ([req, Effect.toast ⟨ToastStyle.success, "Queue Item Removed",
            "Item removed from download queue"⟩], Except.ok ())
        else
          let msg := httpErrorMessage r.status r.statusText
          ([req, Effect.consoleError ("Remove queue item error: " ++ msg),
            Effect.toast ⟨ToastStyle.failure, "Failed to Remove Item", msg⟩],
            Except.error ⟨msg⟩)

/-- The call with both flag parameters left to their defaults
(`removeFromClient: boolean = true, blocklist: boolean = true`,
part_000:256-257). -/
def removeQueueItemDefaults (inst : Option SonarrInstance) (id : Nat)
    (outcome : FetchResult Unit) : List Effect × Except SonarrError Unit :=
  removeQueueItem inst id true true outcome

/-! ### useSonarrAPI tracked reads (part_000:66-99) -/

/-- A request as the underlying fetch primitive would issue it. -/
structure FetchRequest where
  url : String
  apiKeyHeader : String
deriving Repr, DecidableEq

/-- The live result the fetch primitive reports for one cycle. -/
structure FetchState where
  issued : Option FetchRequest
  isLoading : Bool
deriving Repr, DecidableEq

/-- Modelled from the spec: the external `useFetch` primitive
(@raycast/utils, not part of this repository). Per the spec's API-layer
contract, when `execute` is false the request is suppressed (no network
call) and `isLoading` is false; when `execute` is true the given request is
issued and the read is loading until it resolves. -/
def useFetchModel (url : String) (apiKeyHeader : String) (execute : Bool) :
    FetchState :=
  { issued := if execute then some ⟨url, apiKeyHeader⟩ else none
    isLoading := execute }

/-- `shouldExecute` (part_000:76): `!!(instance?.url && instance?.apiKey)
&& options?.execute !== false`. `executeOpt = none` models an absent
`options.execute`. -/
def shouldExecute (inst : Option SonarrInstance) (executeOpt : Option Bool) :
    Bool :=
  (match inst with
    | none => false
    | some i => !(decide (i.url = "")) && !(decide (i.apiKey = ""))) &&
  decide (executeOpt ≠ some false)

/-- The URL expression (part_000:78):
`instance?.url ? instance.url + "/api/v3" + endpoint : ""`. -/
def trackedRequestUrl (inst : Option SonarrInstance) (endpoint : String) :
    String :=
  match inst with
  | none => ""
  | some i => if i.url = "" then "" else i.url ++ "/api/v3" ++ endpoint

/-- The `X-Api-Key` header expression (part_000:82):
`instance?.apiKey || ""`. -/
def trackedApiKeyHeader (inst : Option SonarrInstance) : String :=
  match inst with
  | none => ""
  | some i => i.apiKey

/-- useSonarrAPI (part_000:66-99): compose the suppression guard, URL and
header with the fetch primitive. -/
def useSonarrAPI (inst : Option SonarrInstance) (endpoint : String)
    (executeOpt : Option Bool) : FetchState :=
  useFetchModel (trackedRequestUrl inst endpoint) (trackedApiKeyHeader inst)
    (shouldExecute inst executeOpt)

/-! ### Polling controller (download-queue.tsx:20-31) -/

/-- A download-queue record, reduced to the status field the polling
condition reads. -/
structure QueueItem where
  id : Nat
  status : String
deriving Repr, DecidableEq

/-- `queueItems.some(item => item.status === "downloading")`
(download-queue.tsx:22). -/
def hasActiveDownloads (items : List QueueItem) : Bool :=
  items.any (fun item => item.status == "downloading")

/-- The two states of the polling controller. -/
inductive PollState where
  | idle
  | polling
deriving Repr, DecidableEq

/-- Effect re-run on a snapshot change (download-queue.tsx:21-31): the
previous timer is cleared and a fresh 5-second interval is installed
exactly when the new snapshot has an active download. The resulting state
depends only on the new snapshot. -/
def stepPoll (_previous : PollState) (snapshot : List QueueItem) : PollState :=
  if hasActiveDownloads snapshot then PollState.polling else PollState.idle

/-- The controller state after a sequence of snapshot changes, starting
idle (no timer before the first render). -/
def runPoll (snapshots : List (List QueueItem)) : PollState :=
  snapshots.foldl stepPoll PollState.idle

/-- The interval passed to `setInterval` (download-queue.tsx:27), in
milliseconds. -/
def pollIntervalMs : Nat := 5000

/-- What a refresh invocation calls. -/
inductive RefreshAction where
  | mutate
deriving Repr, DecidableEq

/-- Each interval tick runs `() => { mutate(); }` (download-queue.tsx:25-26). -/
def pollTickAction : RefreshAction := RefreshAction.mutate

/-- The manual Refresh action runs `mutate` (download-queue.tsx:170). -/
def manualRefreshAction : RefreshAction := RefreshAction.mutate

/-! ### Download progress (utils.ts:152-156) -/

/-- The argument shape of getDownloadProgress: `{size, sizeleft}`. Numbers
are embedded as rationals. -/
structure ProgressItem where
  size : ℚ
  sizeleft : ℚ
deriving Repr, DecidableEq

/-- JavaScript `Math.round`: half-up, i.e. the floor of `q + 1/2`. -/
def jsRound (q : ℚ) : ℤ := ⌊q + 1/2⌋

/-- getDownloadProgress (utils.ts:152-156): `0` when `size === 0`, else
`Math.round(((size - sizeleft) / size) * 100 * 100) / 100`. -/
def getDownloadProgress (item : ProgressItem) : ℚ :=
  if item.size = 0 then 0
  else (jsRound (((item.size - item.sizeleft) / item.size) * 100 * 100) : ℚ) / 100

/-- Rounding to two decimal places, as the claim's
`round(v, 2 decimal places)`. -/
def roundTwoDecimals (q : ℚ) : ℚ := (jsRound (q * 100) : ℚ) / 100

/-! ### Contiguous-occurrence machinery for the URL-concatenation claim -/

/-- `startsSeg p l`: the character list `p` is an initial segment of `l`. -/
def startsSeg : List Char → List Char → Bool
  | [], _ => true
  | _ :: _, [] => false
  | c :: p, d :: l => c == d && startsSeg p l

/-- `containsSeg p l`: `p` occurs contiguously somewhere inside `l`. -/
def containsSeg (p : List Char) : List Char → Bool
  | [] => startsSeg p []
  | d :: l => startsSeg p (d :: l) || containsSeg p l

theorem startsSeg_iff (p l : List Char) :
    startsSeg p l = true ↔ ∃ t, l = p ++ t := by
  induction p generalizing l with
  | nil => simp [startsSeg]
  | cons c p ih =>
    cases l with
    | nil => simp [startsSeg]
    | cons d l =>
      simp only [startsSeg, Bool.and_eq_true, beq_iff_eq, ih, List.cons_append,
        List.cons.injEq]
      constructor
      · rintro ⟨rfl, t, rfl⟩; exact ⟨t, rfl, rfl⟩
      · rintro ⟨t, rfl, rfl⟩; exact ⟨rfl, t, rfl⟩

theorem containsSeg_iff (p l : List Char) :
    containsSeg p l = true ↔ ∃ s t, l = s ++ p ++ t := by
  induction l with
  | nil =>
    simp only [containsSeg, startsSeg_iff]
    constructor
    · rintro ⟨t, ht⟩
      exact ⟨[], t, by simpa using ht⟩
    · rintro ⟨s, t, hst⟩
      rcases List.append_eq_nil.mp hst.symm with ⟨h1, h2⟩
      rcases List.append_eq_nil.mp h1 with ⟨rfl, rfl⟩
      exact ⟨t, by simpa using hst⟩
  | cons d l ih =>
    simp only [containsSeg, Bool.or_eq_true, startsSeg_iff, ih]
    constructor
    · rintro (⟨t, ht⟩ | ⟨s, t, rfl⟩)
      · exact ⟨[], t, by simpa using ht⟩
      · exact ⟨d :: s, t, rfl⟩
    · rintro ⟨s, t, hst⟩
      cases s with
      | nil => exact Or.inl ⟨t, by simpa using hst⟩
      | cons e s =>
        rcases List.cons.injEq .. ▸ hst with ⟨rfl, h⟩
        exact Or.inr ⟨s, t, h⟩

/-- An occurrence of `p` inside `xs ++ ys` lies inside `xs`, inside `ys`,
or straddles the boundary: `p` splits as a nonempty suffix of `xs`
followed by a nonempty prefix of `ys`. -/
theorem containsSeg_append (p xs ys : List Char)
    (h : containsSeg p (xs ++ ys) = true) :
    containsSeg p xs = true ∨ containsSeg p ys = true ∨
    ∃ p₁ p₂, p = p₁ ++ p₂ ∧ p₁ ≠ [] ∧ p₂ ≠ [] ∧
      (∃ s, xs = s ++ p₁) ∧ (∃ t, ys = p₂ ++ t) := by
  rcases (containsSeg_iff p (xs ++ ys)).mp h with ⟨s, t, hst⟩
  have hst' : s ++ (p ++ t) = xs ++ ys := by
    simpa [List.append_assoc] using hst.symm
  rcases List.append_eq_append_iff.mp hst' with ⟨a, ha, hb⟩ | ⟨c, hc, hd⟩
  · rcases List.append_eq_append_iff.mp hb with ⟨b, hab, htb⟩ | ⟨c, hpc, hyc⟩
    · exact Or.inl ((containsSeg_iff p xs).mpr ⟨s, b, by rw [ha, hab, List.append_assoc]⟩)
    · rcases eq_or_ne a [] with rfl | hane
      · refine Or.inr (Or.inl ((containsSeg_iff p ys).mpr ⟨[], t, ?_⟩))
        simp at hpc
        simp [hyc, hpc]
      · rcases eq_or_ne c [] with rfl | hcne
        · refine Or.inl ((containsSeg_iff p xs).mpr ⟨s, [], ?_⟩)
          simp at hpc
          simp [ha, hpc]
        · exact Or.inr (Or.inr ⟨a, c, hpc, hane, hcne, ⟨s, ha⟩, ⟨t, hyc⟩⟩)
  · exact Or.inr (Or.inl ((containsSeg_iff p ys).mpr ⟨c, t, by
      rw [hd, List.append_assoc]⟩))

/-- The character pattern `//api`, a double slash immediately before the
`api` path segment. -/
def slashSlashApi : List Char := "//api".data

/-- If `xs` does not end in a slash, gluing it to a tail that starts with a
slash creates no new `//api` occurrence: any occurrence in `xs ++ '/'::ys`
was already inside `xs` or inside `'/'::ys`. -/
theorem slashSlashApi_append (xs ys : List Char)
    (hlast : xs.getLast? ≠ some '/')
    (hxs : containsSeg slashSlashApi xs = false)
    (hys : containsSeg slashSlashApi ('/' :: ys) = false) :
    containsSeg slashSlashApi (xs ++ '/' :: ys) = false := by
  by_contra hcon
  have h : containsSeg slashSlashApi (xs ++ '/' :: ys) = true := by
    simpa using hcon
  rcases containsSeg_append _ _ _ h with h1 | h2 | ⟨p₁, p₂, hsplit, hp₁, hp₂, ⟨s, rfl⟩, ⟨t, ht⟩⟩
  · rw [hxs] at h1; cases h1
  · rw [hys] at h2; cases h2
  · -- `p₂` is a nonempty prefix of `'/'::ys`, so it starts with `'/'`;
    -- the only split of `//api` whose second part starts with `'/'` is
    -- after the first character, forcing `xs` to end in `'/'`.
    cases p₂ with
    | nil => exact hp₂ rfl
    | cons c p₂ =>
      have hc : c = '/' := by
        injection ht with h₀ h₁
        exact h₀.symm
      subst hc
      cases p₁ with
      | nil => exact hp₁ rfl
      | cons c₁ p₁ =>
        rcases List.cons.injEq .. ▸ hsplit.symm with ⟨rfl, h₁⟩
        cases p₁ with
        | nil =>
          apply hlast
          simp
        | cons c₂ p₁ =>
          rcases List.cons.injEq .. ▸ h₁ with ⟨rfl, h₂⟩
          cases p₁ with
          | nil => simp at h₂
          | cons c₃ p₁ =>
            rcases List.cons.injEq .. ▸ h₂ with ⟨rfl, h₃⟩
            cases p₁ with
            | nil => simp at h₃
            | cons c₄ p₁ =>
              rcases List.cons.injEq .. ▸ h₃ with ⟨rfl, h₄⟩
              cases p₁ with
              | nil => simp at h₄
              | cons c₅ p₁ => simp at h₄

/-! ## Concrete configurations used by witnesses and counterexamples -/

/-- A complete primary configuration with the secondary disabled. -/
def prefsPrimaryOnly : Preferences :=
  { primaryInstanceName := "Main", primaryInstanceUrl := "http://sonarr.local:8989",
    primaryInstanceApiKey := "key", enableSecondaryInstance := false,
    secondaryInstanceName := "", secondaryInstanceUrl := "",
    secondaryInstanceApiKey := "", activeInstance := "primary" }

/-- A configuration with the primary URL unset. -/
def prefsIncomplete : Preferences :=
  { primaryInstanceName := "Main", primaryInstanceUrl := "",
    primaryInstanceApiKey := "key", enableSecondaryInstance := false,
    secondaryInstanceName := "", secondaryInstanceUrl := "",
    secondaryInstanceApiKey := "", activeInstance := "primary" }

/-- A fully configured, enabled and selected secondary instance. -/
def prefsSecondaryActive : Preferences :=
  { primaryInstanceName := "Main", primaryInstanceUrl := "http://sonarr.local:8989",
    primaryInstanceApiKey := "key", enableSecondaryInstance := true,
    secondaryInstanceName := "Backup", secondaryInstanceUrl := "http://backup.local:8989",
    secondaryInstanceApiKey := "key2", activeInstance := "secondary" }

/-- Secondary marked enabled and selected as active, but with its URL
unset, so it never resolves to an instance. -/
def prefsSecondaryMisconfigured : Preferences :=
  { primaryInstanceName := "Main", primaryInstanceUrl := "http://sonarr.local:8989",
    primaryInstanceApiKey := "key", enableSecondaryInstance := true,
    secondaryInstanceName := "Backup", secondaryInstanceUrl := "",
    secondaryInstanceApiKey := "key2", activeInstance := "secondary" }

/-- A valid instance value for witnesses. -/
def instMain : SonarrInstance :=
  { name := "Main", url := "http://sonarr.local:8989", apiKey := "key", isDefault := true }

/-! ## Claim C1 -/

/-- C1 counterexample: the claim says every failing `searchSeries`
invocation — including an invalid instance — returns an empty sequence
rather than throwing, but an absent instance makes the guard before the
try block throw "Invalid Sonarr instance configuration" and no empty
sequence is returned. -/
theorem C1_counterexample :
    (searchSeries none "breaking bad" (FetchResult.networkError "ECONNREFUSED")).2 =
      Except.error ⟨invalidInstanceMessage⟩ ∧
    (searchSeries none "breaking bad" (FetchResult.networkError "ECONNREFUSED")).2 ≠
      Except.ok [] := by
  refine ⟨rfl, ?_⟩
  intro h
  simp [searchSeries, instanceInvalid] at h

/-- C1 (amended): on a transport failure or non-success HTTP status —
with a valid instance — `searchSeries` returns an empty sequence instead
of throwing, after emitting a failure toast; an invalid instance instead
throws before any request is issued. -/
theorem C1_search_degrades_to_empty (inst : Option SonarrInstance)
    (query : String) (outcome : FetchResult LookupBody)
    (hvalid : instanceInvalid inst = false)
    (hfail : fetchFailed outcome = true) :
    (searchSeries inst query outcome).2 = Except.ok [] ∧
    (∃ t, Effect.toast t ∈ (searchSeries inst query outcome).1 ∧
      t.style = ToastStyle.failure) ∧
    (∀ badInst, instanceInvalid badInst = true →
      (searchSeries badInst query outcome).2 = Except.error ⟨invalidInstanceMessage⟩ ∧
      (searchSeries badInst query outcome).1 = []) := by
  refine ⟨?_, ?_, ?_⟩
  · cases inst with
    | none => simp [instanceInvalid] at hvalid
    | some i =>
      cases outcome with
      | networkError msg => simp [searchSeries, hvalid]
      | response r =>
        have hr : r.okStatus = false := by
          simpa [fetchFailed] using hfail
        simp [searchSeries, hvalid, hr]
  · cases inst with
    | none => simp [instanceInvalid] at hvalid
    | some i =>
      cases outcome with
      | networkError msg =>
        refine ⟨⟨ToastStyle.failure, "Search Failed",
          "Failed to search series: " ++ msg⟩, ?_, rfl⟩
        simp [searchSeries, hvalid]
      | response r =>
        have hr : r.okStatus = false := by
          simpa [fetchFailed] using hfail
        refine ⟨⟨ToastStyle.failure, "Search Failed",
          "Failed to search series: " ++ httpErrorMessage r.status r.statusText⟩, ?_, rfl⟩
        simp [searchSeries, hvalid, hr]
  · intro badInst hbad
    cases badInst with
    | none => exact ⟨rfl, rfl⟩
    | some i => simp [searchSeries, hbad]

/-- C1 witness: a concrete 500 response on a valid instance yields `[]`
and a failure toast, and a concrete invalid instance throws. -/
theorem C1_witness :
    instanceInvalid (some instMain) = false ∧
    fetchFailed (FetchResult.response (⟨500, "Internal Server Error", LookupBody.notArray⟩ : HttpResponse LookupBody)) = true ∧
    (searchSeries (some instMain) "firefly"
      (FetchResult.response ⟨500, "Internal Server Error", LookupBody.notArray⟩)).2 =
      Except.ok [] := by
  refine ⟨by decide, by decide, ?_⟩
  exact (C1_search_degrades_to_empty (some instMain) "firefly"
    (FetchResult.response ⟨500, "Internal Server Error", LookupBody.notArray⟩)
    (by decide) (by decide)).1

/-! ## Claim C2 -/

/-- C2 counterexample: the configuration marks the secondary both enabled
and "active", yet `getActiveSonarrInstance` returns the primary, because
the secondary's URL is unset and the secondary never resolves — refuting
the claimed if-and-only-if. -/
theorem C2_counterexample :
    prefsSecondaryMisconfigured.enableSecondaryInstance = true ∧
    prefsSecondaryMisconfigured.activeInstance = "secondary" ∧
    getActiveSonarrInstance prefsSecondaryMisconfigured =
      Except.ok (primaryInstanceOf prefsSecondaryMisconfigured) ∧
    (primaryInstanceOf prefsSecondaryMisconfigured).isDefault = true := by
  exact ⟨rfl, rfl, rfl, rfl⟩

/-- C2 (amended): `getActiveSonarrInstance` returns the secondary iff the
primary is completely configured, the configuration selects "secondary",
and the secondary is enabled *and fully configured* (so that it resolves);
otherwise it returns the primary; and both functions fail with the
configuration error whenever the primary is incompletely configured. -/
theorem C2_active_instance_selection (p : Preferences) :
    (getActiveSonarrInstance p = Except.ok (secondaryInstanceOf p) ↔
      ¬ primaryIncomplete p ∧ p.activeInstance = "secondary" ∧ secondaryConfigured p) ∧
    (primaryIncomplete p →
      getSonarrInstances p = Except.error ConfigError.primaryIncomplete ∧
      getActiveSonarrInstance p = Except.error ConfigError.primaryIncomplete) ∧
    (¬ primaryIncomplete p →
      ¬ (p.activeInstance = "secondary" ∧ secondaryConfigured p) →
      getActiveSonarrInstance p = Except.ok (primaryInstanceOf p)) := by
  have hne : primaryInstanceOf p ≠ secondaryInstanceOf p := by
    intro h
    have := congrArg SonarrInstance.isDefault h
    simp [primaryInstanceOf, secondaryInstanceOf] at this
  by_cases h1 : primaryIncomplete p
  · refine ⟨?_, fun _ => ⟨?_, ?_⟩, fun hcontra => absurd h1 hcontra⟩
    · simp [getActiveSonarrInstance, getSonarrInstances, h1]
    · simp [getSonarrInstances, h1]
    · simp [getActiveSonarrInstance, getSonarrInstances, h1]
  · by_cases h2 : secondaryConfigured p
    · have hinst : getSonarrInstances p =
          Except.ok [primaryInstanceOf p, secondaryInstanceOf p] := by
        simp [getSonarrInstances, h1, h2]
      by_cases h3 : p.activeInstance = "secondary"
      · refine ⟨?_, fun hcontra => absurd hcontra h1, fun _ hcontra => absurd ⟨h3, h2⟩ hcontra⟩
        simp [getActiveSonarrInstance, hinst, h3, h2.1, h1, h2]
      · refine ⟨?_, fun hcontra => absurd hcontra h1, fun _ _ => ?_⟩
        · simp [getActiveSonarrInstance, hinst, h3]
          exact hne
        · simp [getActiveSonarrInstance, hinst, h3]
    · have hinst : getSonarrInstances p = Except.ok [primaryInstanceOf p] := by
        simp [getSonarrInstances, h1, h2]
      refine ⟨?_, fun hcontra => absurd hcontra h1, fun _ _ => ?_⟩
      · simp [getActiveSonarrInstance, hinst, h2]
        exact hne
      · simp [getActiveSonarrInstance, hinst]

/-- C2 witness: the incomplete configuration fails with the configuration
error on both functions, and a fully configured, enabled, selected
secondary is returned. -/
theorem C2_witness :
    getSonarrInstances prefsIncomplete = Except.error ConfigError.primaryIncomplete ∧
    getActiveSonarrInstance prefsIncomplete = Except.error ConfigError.primaryIncomplete ∧
    getActiveSonarrInstance prefsSecondaryActive =
      Except.ok (secondaryInstanceOf prefsSecondaryActive) := by
  refine ⟨((C2_active_instance_selection prefsIncomplete).2.1 (by decide)).1,
    ((C2_active_instance_selection prefsIncomplete).2.1 (by decide)).2,
    (C2_active_instance_selection prefsSecondaryActive).1.mpr
      ⟨by decide, by decide, by decide⟩⟩

/-! ## Claim C3 -/

/-- String append acts as list append on the character data. -/
theorem data_append (a b : String) : (a ++ b).data = a.data ++ b.data := rfl

/-- A primary URL ending in two slashes. -/
def prefsDoubleSlash : Preferences :=
  { primaryInstanceName := "Main", primaryInstanceUrl := "http://host//",
    primaryInstanceApiKey := "key", enableSecondaryInstance := false,
    secondaryInstanceName := "", secondaryInstanceUrl := "",
    secondaryInstanceApiKey := "", activeInstance := "primary" }

/-- C3 counterexample: a baseUrl ending in two trailing slashes is stored
with one trailing slash remaining (`replace(/\/$/, "")` strips at most
one), and concatenating the stored URL with an endpoint yields `//api`. -/
theorem C3_counterexample :
    getSonarrInstances prefsDoubleSlash =
      Except.ok [(⟨"Main", "http://host/", "key", true⟩ : SonarrInstance)] ∧
    "http://host/".data.getLast? = some '/' ∧
    containsSeg slashSlashApi ("http://host/" ++ "/api/v3" ++ "/series").data = true := by
  exact ⟨rfl, rfl, by decide⟩

/-- C3 (amended): for a configured primary whose raw URL ends in exactly
one trailing slash, the stored URL has zero trailing slashes, and gluing
it to `/api/v3{endpoint}` creates no `//api` occurrence that was not
already present in the URL body or the endpoint; a URL ending in two or
more slashes keeps all but one of them. -/
theorem C3_single_trailing_slash_stripped (p : Preferences) (ep : String)
    (h1 : p.primaryInstanceUrl.data.getLast? = some '/')
    (h2 : p.primaryInstanceUrl.data.dropLast.getLast? ≠ some '/')
    (h3 : containsSeg slashSlashApi p.primaryInstanceUrl.data.dropLast = false)
    (h4 : containsSeg slashSlashApi ("/api/v3" ++ ep).data = false) :
    (primaryInstanceOf p).url.data = p.primaryInstanceUrl.data.dropLast ∧
    (primaryInstanceOf p).url.data.getLast? ≠ some '/' ∧
    containsSeg slashSlashApi ((primaryInstanceOf p).url ++ "/api/v3" ++ ep).data = false := by
  have hurl : (primaryInstanceOf p).url.data = p.primaryInstanceUrl.data.dropLast := by
    simp [primaryInstanceOf, stripTrailingSlash, h1]
  refine ⟨hurl, by rw [hurl]; exact h2, ?_⟩
  have hdata : ((primaryInstanceOf p).url ++ "/api/v3" ++ ep).data =
      (primaryInstanceOf p).url.data ++ ("/api/v3" ++ ep).data := by
    rw [data_append, data_append, data_append, List.append_assoc]
  have htail : ("/api/v3" ++ ep).data =
      '/' :: ('a' :: 'p' :: 'i' :: '/' :: 'v' :: '3' :: ep.data) := rfl
  rw [hdata, hurl, htail]
  exact slashSlashApi_append _ _ h2 h3 (htail ▸ h4)

/-- A primary URL ending in exactly one slash. -/
def prefsSingleSlash : Preferences :=
  { primaryInstanceName := "Main", primaryInstanceUrl := "http://host/",
    primaryInstanceApiKey := "key", enableSecondaryInstance := false,
    secondaryInstanceName := "", secondaryInstanceUrl := "",
    secondaryInstanceApiKey := "", activeInstance := "primary" }

/-- C3 witness: the stored URL of a primary configured as
`http://host/` has no trailing slash and the series endpoint URL is free
of `//api`. -/
theorem C3_witness :
    (primaryInstanceOf prefsSingleSlash).url.data = "http://host".data ∧
    containsSeg slashSlashApi
      ((primaryInstanceOf prefsSingleSlash).url ++ "/api/v3" ++ "/series").data = false := by
  have h := C3_single_trailing_slash_stripped prefsSingleSlash "/series"
    (by decide) (by decide) (by decide) (by decide)
  exact ⟨h.1, h.2.2⟩

/-! ## Claim C4 -/

/-- C4: the download-progress function returns the ratio
`(size - sizeleft) / size` as a percentage rounded to two decimal places,
`0` when `size = 0`; in particular full progress is `100`, zero progress
is `0`, and the zero-size guard yields `0`. -/
theorem C4_download_progress (size sizeleft other : ℚ) (hpos : 0 < size) :
    getDownloadProgress ⟨size, sizeleft⟩ =
      roundTwoDecimals (((size - sizeleft) / size) * 100) ∧
    getDownloadProgress ⟨size, 0⟩ = 100 ∧
    getDownloadProgress ⟨size, size⟩ = 0 ∧
    getDownloadProgress ⟨0, other⟩ = 0 := by
  have hne : size ≠ 0 := hpos.ne'
  refine ⟨?_, ?_, ?_, ?_⟩
  · simp [getDownloadProgress, roundTwoDecimals, hne, mul_assoc]
  · rw [getDownloadProgress]
    simp only [hne, if_false, sub_zero, div_self hne]
    norm_num [jsRound]
  · rw [getDownloadProgress]
    simp only [hne, if_false, sub_self, zero_div, zero_mul]
    norm_num [jsRound]
  · simp [getDownloadProgress]

/-- C4 witness: concrete evaluations at size 4. -/
theorem C4_witness :
    (0 : ℚ) < 4 ∧
    getDownloadProgress ⟨4, 0⟩ = 100 ∧
    getDownloadProgress ⟨4, 4⟩ = 0 ∧
    getDownloadProgress ⟨0, 7⟩ = 0 := by
  have h := C4_download_progress 4 1 7 (by norm_num)
  exact ⟨by norm_num, h.2.1, h.2.2.1, h.2.2.2⟩

/-! ## Claim C5 -/

/-- The lookup result used in concrete payload checks. -/
def exampleLookup : SeriesLookup :=
  { title := "Example", sortTitle := "example", status := "continuing",
    overview := "", network := "", airTime := "", images := [],
    seasons := [{ seasonNumber := 1, monitored := true }], year := 2020,
    tvdbId := 123, imdbId := "tt0000001", titleSlug := "example" }

/-- C5 counterexample: when the caller passes `monitorSeasons`, the
payload's `seasons` are NOT copied from the lookup result — the override
wins — refuting the universally quantified clause, while the path clause
still holds at the same input. -/
theorem C5_counterexample :
    (addSeriesPayload exampleLookup 1 "/tv" 1 "standard" true true true
      (some [])).path = "/tv/Example" ∧
    (addSeriesPayload exampleLookup 1 "/tv" 1 "standard" true true true
      (some [])).seasons ≠ exampleLookup.seasons := by
  refine ⟨rfl, ?_⟩
  intro h
  simp [addSeriesPayload, exampleLookup] at h

/-- C5 (amended): every constructed payload has
`path = rootFolderPath ++ "/" ++ series.title` and title/images copied
from the lookup result; `seasons` is copied from the lookup result
exactly when the optional `monitorSeasons` argument is absent, and is the
caller's `monitorSeasons` list when present; a valid `addSeries` call
issues its POST with exactly this payload. -/
theorem C5_add_series_payload (series : SeriesLookup) (qp : Nat)
    (root : String) (lp : Nat) (st : String) (sf mon soa : Bool)
    (ms : Option (List Season)) (i : SonarrInstance)
    (outcome : FetchResult String)
    (hvalid : instanceInvalid (some i) = false) :
    (addSeriesPayload series qp root lp st sf mon soa ms).path =
      root ++ "/" ++ series.title ∧
    (addSeriesPayload series qp root lp st sf mon soa ms).title = series.title ∧
    (addSeriesPayload series qp root lp st sf mon soa ms).images = series.images ∧
    (ms = none →
      (addSeriesPayload series qp root lp st sf mon soa ms).seasons = series.seasons) ∧
    (∀ override, ms = some override →
      (addSeriesPayload series qp root lp st sf mon soa ms).seasons = override) ∧
    (∃ rest, (addSeries (some i) series qp root lp st sf mon soa ms outcome).1 =
      WriteEffect.post (i.url ++ "/api/v3/series") i.apiKey
        (addSeriesPayload series qp root lp st sf mon soa ms) :: rest) := by
  refine ⟨rfl, rfl, rfl, ?_, ?_, ?_⟩
  · rintro rfl; rfl
  · rintro override rfl; rfl
  · cases outcome with
    | networkError msg =>
      exact ⟨[WriteEffect.consoleError ("Add series error: " ++ msg),
        WriteEffect.toast ⟨ToastStyle.failure, "Failed to Add Series",
          "Could not add " ++ series.title ++ ": " ++ msg⟩],
        by simp [addSeries, hvalid]⟩
    | response r =>
      by_cases hok : r.okStatus
      · exact ⟨[WriteEffect.toast ⟨ToastStyle.success, "Series Added",
          series.title ++ " (" ++ toString series.year ++ ") added to " ++ i.name⟩],
          by simp [addSeries, hvalid, hok]⟩
      · exact ⟨[WriteEffect.consoleError
            ("Add series error: " ++ httpErrorMessage r.status r.body),
          WriteEffect.toast ⟨ToastStyle.failure, "Failed to Add Series",
            "Could not add " ++ series.title ++ ": " ++ httpErrorMessage r.status r.body⟩],
          by simp [addSeries, hvalid, hok]⟩

/-- C5 witness: the claim's particular input — root folder `/tv` and
title `Example` — yields path `/tv/Example`, with seasons copied when
`monitorSeasons` is omitted. -/
theorem C5_witness :
    (addSeriesPayload exampleLookup 1 "/tv" 1 "standard" true true true
      none).path = "/tv/Example" ∧
    (addSeriesPayload exampleLookup 1 "/tv" 1 "standard" true true true
      none).seasons = exampleLookup.seasons := by
  have h := C5_add_series_payload exampleLookup 1 "/tv" 1 "standard" true true true
    none instMain (FetchResult.networkError "down") (by decide)
  exact ⟨h.1, h.2.2.2.1 rfl⟩

/-! ## Claim C6 -/

/-- C6: a defaulted `removeQueueItem` call receiving a non-2xx response
throws an error whose message contains the HTTP status code; the failure
toast is among the effects emitted before the error is returned; the
request is a DELETE whose query string carries `removeFromClient` and
`blocklist`, both serialized as `true` under the defaults. -/
theorem C6_remove_queue_item (i : SonarrInstance) (id : Nat)
    (r : HttpResponse Unit)
    (hvalid : instanceInvalid (some i) = false)
    (hnotok : r.okStatus = false) :
    (removeQueueItemDefaults (some i) id (FetchResult.response r)).2 =
      Except.error ⟨httpErrorMessage r.status r.statusText⟩ ∧
    (∃ s t, (httpErrorMessage r.status r.statusText).data =
      s ++ (toString r.status).data ++ t) ∧
    (removeQueueItemDefaults (some i) id (FetchResult.response r)).1 =
      [Effect.request "DELETE"
        (i.url ++ "/api/v3/queue/" ++ toString id ++ "?removeFromClient=" ++
          jsBoolString true ++ "&blocklist=" ++ jsBoolString true) i.apiKey,
       Effect.consoleError
        ("Remove queue item error: " ++ httpErrorMessage r.status r.statusText),
       Effect.toast ⟨ToastStyle.failure, "Failed to Remove Item",
        httpErrorMessage r.status r.statusText⟩] ∧
    jsBoolString true = "true" := by
  refine ⟨?_, ?_, ?_, rfl⟩
  · simp [removeQueueItemDefaults, removeQueueItem, hvalid, hnotok]
  · refine ⟨"HTTP ".data, (": " ++ r.statusText).data, ?_⟩
    simp [httpErrorMessage, data_append, List.append_assoc]
  · simp [removeQueueItemDefaults, removeQueueItem, hvalid, hnotok]

/-- C6 witness: a concrete 404 response on a valid instance. -/
theorem C6_witness :
    (removeQueueItemDefaults (some instMain) 5
      (FetchResult.response ⟨404, "Not Found", ()⟩)).2 =
      Except.error ⟨httpErrorMessage 404 "Not Found"⟩ ∧
    Effect.toast ⟨ToastStyle.failure, "Failed to Remove Item",
        httpErrorMessage 404 "Not Found"⟩ ∈
      (removeQueueItemDefaults (some instMain) 5
        (FetchResult.response ⟨404, "Not Found", ()⟩)).1 := by
  have h := C6_remove_queue_item instMain 5 ⟨404, "Not Found", ()⟩
    (by decide) (by decide)
  refine ⟨h.1, ?_⟩
  rw [h.2.2.1]
  simp

/-! ## Claim C7 -/

/-- C7: a tracked read is suppressed — no request issued and
`isLoading = false` — whenever the instance is absent or missing a
credential; and every issued request targets `{baseUrl}/api/v3{endpoint}`
with the `X-Api-Key` header set to the instance's key. -/
theorem C7_tracked_read (inst : Option SonarrInstance) (endpoint : String)
    (executeOpt : Option Bool) :
    ((inst = none ∨ ∃ i, inst = some i ∧ (i.url = "" ∨ i.apiKey = "")) →
      (useSonarrAPI inst endpoint executeOpt).issued = none ∧
      (useSonarrAPI inst endpoint executeOpt).isLoading = false) ∧
    (∀ req, (useSonarrAPI inst endpoint executeOpt).issued = some req →
      ∃ i, inst = some i ∧ req.url = i.url ++ "/api/v3" ++ endpoint ∧
        req.apiKeyHeader = i.apiKey) := by
  constructor
  · rintro (rfl | ⟨i, rfl, hmiss⟩)
    · simp [useSonarrAPI, useFetchModel, shouldExecute]
    · rcases hmiss with h | h <;>
        simp [useSonarrAPI, useFetchModel, shouldExecute, h]
  · intro req hreq
    cases inst with
    | none => simp [useSonarrAPI, useFetchModel, shouldExecute] at hreq
    | some i =>
      refine ⟨i, rfl, ?_⟩
      by_cases hu : i.url = ""
      · simp [useSonarrAPI, useFetchModel, shouldExecute, hu] at hreq
      · by_cases hk : i.apiKey = ""
        · simp [useSonarrAPI, useFetchModel, shouldExecute, hk] at hreq
        · by_cases hx : executeOpt = some false
          · simp [useSonarrAPI, useFetchModel, shouldExecute, hx] at hreq
          · have : (useSonarrAPI (some i) endpoint executeOpt).issued =
                some ⟨i.url ++ "/api/v3" ++ endpoint, i.apiKey⟩ := by
              simp [useSonarrAPI, useFetchModel, shouldExecute, hu, hk, hx,
                trackedRequestUrl, trackedApiKeyHeader]
            rw [this] at hreq
            cases hreq
            exact ⟨rfl, rfl⟩

/-- C7 witness: an absent instance is suppressed; a valid instance's
request carries the key and the versioned URL. -/
theorem C7_witness :
    (useSonarrAPI none "/series" none).issued = none ∧
    (useSonarrAPI none "/series" none).isLoading = false ∧
    (useSonarrAPI (some instMain) "/series" none).issued =
      some ⟨"http://sonarr.local:8989/api/v3/series", "key"⟩ := by
  have h := (C7_tracked_read none "/series" none).1 (Or.inl rfl)
  exact ⟨h.1, h.2, rfl⟩

/-! ## Claim C8 -/

/-- C8: the polling controller has exactly two states; after any sequence
of snapshot changes the 5-second interval timer is active exactly when
the current snapshot contains a `"downloading"` item; a snapshot change
that removes the last such item moves the controller to Idle in one step
regardless of the previous state; and each tick invokes the same
`mutate` as the manual Refresh action. -/
theorem C8_polling_controller (snaps : List (List QueueItem))
    (current : List QueueItem) (previous : PollState) :
    (runPoll (snaps ++ [current]) = PollState.polling ↔
      hasActiveDownloads current = true) ∧
    (runPoll (snaps ++ [current]) = PollState.idle ↔
      hasActiveDownloads current = false) ∧
    (hasActiveDownloads current = true →
      stepPoll previous current = PollState.polling) ∧
    (hasActiveDownloads current = false →
      stepPoll previous current = PollState.idle) ∧
    pollIntervalMs = 5000 ∧
    pollTickAction = manualRefreshAction := by
  have hrun : runPoll (snaps ++ [current]) = stepPoll (runPoll snaps) current := by
    simp [runPoll, List.foldl_append]
  cases hact : hasActiveDownloads current with
  | true =>
    refine ⟨?_, ?_, fun _ => ?_, fun h => ?_, rfl, rfl⟩
    · simp [hrun, stepPoll, hact]
    · simp [hrun, stepPoll, hact]
    · simp [stepPoll, hact]
    · cases h
  | false =>
    refine ⟨?_, ?_, fun h => ?_, fun _ => ?_, rfl, rfl⟩
    · simp [hrun, stepPoll, hact]
    · simp [hrun, stepPoll, hact]
    · cases h
    · simp [stepPoll, hact]

/-- C8 witness: with a downloading item in the snapshot the timer is
active, and the next snapshot without one stops it in one step. -/
theorem C8_witness :
    runPoll [[{ id := 1, status := "downloading" }]] = PollState.polling ∧
    stepPoll PollState.polling [] = PollState.idle := by
  exact ⟨(C8_polling_controller [] [⟨1, "downloading"⟩] PollState.idle).1.mpr
      (by decide),
    (C8_polling_controller [] [] PollState.polling).2.2.2.1 (by decide)⟩

/-! ## Claim C10 -/

/-- C10: `getSonarrInstances` either throws or returns a list of one or
two instances headed by the primary with `isDefault = true`; in the
latter case `getActiveSonarrInstance` returns an instance, so its
"No Sonarr instances configured" branch is unreachable for every
preference value. -/
theorem C10_no_instances_unreachable (p : Preferences) :
    getActiveSonarrInstance p ≠ Except.error ConfigError.noInstances ∧
    (∀ l, getSonarrInstances p = Except.ok l →
      (l.length = 1 ∨ l.length = 2) ∧
      l.head? = some (primaryInstanceOf p) ∧
      (primaryInstanceOf p).isDefault = true ∧
      ∃ inst, getActiveSonarrInstance p = Except.ok inst) := by
  by_cases h1 : primaryIncomplete p
  · constructor
    · simp [getActiveSonarrInstance, getSonarrInstances, h1]
    · intro l hl
      simp [getSonarrInstances, h1] at hl
  · by_cases h2 : secondaryConfigured p
    · have hinst : getSonarrInstances p =
          Except.ok [primaryInstanceOf p, secondaryInstanceOf p] := by
        simp [getSonarrInstances, h1, h2]
      constructor
      · simp only [getActiveSonarrInstance, hinst]
        split <;> simp
      · intro l hl
        rw [hinst] at hl
        cases hl
        refine ⟨Or.inr rfl, rfl, rfl, ?_⟩
        simp only [getActiveSonarrInstance, hinst]
        split <;> exact ⟨_, rfl⟩
    · have hinst : getSonarrInstances p = Except.ok [primaryInstanceOf p] := by
        simp [getSonarrInstances, h1, h2]
      constructor
      · simp only [getActiveSonarrInstance, hinst]
        split <;> simp
      · intro l hl
        rw [hinst] at hl
        cases hl
        refine ⟨Or.inl rfl, rfl, rfl, ?_⟩
        simp only [getActiveSonarrInstance, hinst]
        split <;> exact ⟨_, rfl⟩

/-- C10 witness: a complete primary-only configuration resolves to a
one-element list headed by the primary and an active instance. -/
theorem C10_witness :
    getActiveSonarrInstance prefsPrimaryOnly ≠
      Except.error ConfigError.noInstances ∧
    ([primaryInstanceOf prefsPrimaryOnly].length = 1 ∨
      [primaryInstanceOf prefsPrimaryOnly].length = 2) ∧
    [primaryInstanceOf prefsPrimaryOnly].head? =
      some (primaryInstanceOf prefsPrimaryOnly) ∧
    (primaryInstanceOf prefsPrimaryOnly).isDefault = true ∧
    ∃ inst, getActiveSonarrInstance prefsPrimaryOnly = Except.ok inst := by
  exact ⟨(C10_no_instances_unreachable prefsPrimaryOnly).1,
    (C10_no_instances_unreachable prefsPrimaryOnly).2
      [primaryInstanceOf prefsPrimaryOnly] rfl⟩

end Sonarr
